import Mathlib

/-!
Shallow embedding of the minireq HTTP client core (package `minireq`):
the retry engine (`doWithRetry`, src/minireq.go:300-363 and the policy /
delay constructors of src/retry.go), the transport manager
(`getTransport`, `clearTransport` and the configuration setters,
src/minireq.go:109-469), the response accessors (`RawData`,
`ReadStream`, src/response.go:37-103) and the multipart body builder
(the `FormData` branch of `reqOptions`, src/minireq.go:193-255).

Go conventions used throughout the embedding:
  - `nil`-able pointers and interfaces become `Option`;
  - `error` values become an explicit `GoErr` datatype;
  - `time.Duration` (an int64 nanosecond count) becomes `Int`;
  - the network is an oracle: the outcome of `client.Do` at each attempt
    index is a parameter of `doWithRetry`, and a response body is the
    byte list it would yield when fully read;
  - the atomically stored fields of `HttpClient` are modelled by a state
    record threaded sequentially (single-caller semantics of the atomic
    Load/Store/Swap code paths);
  - ghost counters (`builds`, `reads`) instrument how many times a
    transport was constructed and how many times a network body was read;
    they influence nothing and record the events the claims talk about.
-/

namespace Minireq

/-- A Go `error` value reaching the retry loop: either an ordinary error
(network failure, rewind failure, ...) carrying its message, or the wrapper
produced by `fmt.Errorf("failed to reset request body: %w", err)` at
src/minireq.go:347. -/
inductive GoErr where
  | simple (msg : String)
  | rewindWrap (inner : GoErr)
  deriving DecidableEq, Repr

/-- The part of `http.Response` the retry loop inspects. -/
structure GoResponse where
  statusCode : Nat
  deriving DecidableEq, Repr

/-- The `(resp, err)` pair produced by one `client.Do` call
(src/minireq.go:352). -/
structure Outcome where
  resp : Option GoResponse
  err : Option GoErr
  deriving DecidableEq, Repr

/-- `status := 0; if resp != nil { status = resp.StatusCode }`
(src/minireq.go:330-333). -/
def statusOf (resp : Option GoResponse) : Nat :=
  match resp with
  | some r => r.statusCode
  | none => 0

/-- The `RetryEvent` passed to the `OnRetry` observer
(src/retry.go:16-21); the delay is in nanoseconds. -/
structure RetryEvent where
  attempt : Nat
  status : Nat
  err : Option GoErr
  delay : Int
  deriving DecidableEq, Repr

/-- `RetryPolicyWithStatusCodes` (src/retry.go:102-117): retry on any
error; with no error and no response do not retry; otherwise retry iff the
status code is in the given set. -/
def RetryPolicyWithStatusCodes (codes : List Nat) :
    Option GoResponse → Option GoErr → Bool :=
  fun resp err =>
    match err with
    | some _ => true
    | none =>
      match resp with
      | none => false
      | some r => codes.contains r.statusCode

/-- `RetryPolicyWithStatusRange` (src/retry.go:119-129). -/
def RetryPolicyWithStatusRange (lo hi : Nat) :
    Option GoResponse → Option GoErr → Bool :=
  fun resp err =>
    match err with
    | some _ => true
    | none =>
      match resp with
      | none => false
      | some r => decide (lo ≤ r.statusCode ∧ r.statusCode ≤ hi)

/-- `defaultRetryPolicy = RetryPolicyWithStatusRange(500, 599)`
(src/retry.go:10). -/
def defaultRetryPolicy : Option GoResponse → Option GoErr → Bool :=
  RetryPolicyWithStatusRange 500 599

/-- One `request.GetBody()` call (src/minireq.go:344-350): `none` models a
request with `GetBody == nil` (no rewind is attempted and the body is left
alone); `some gb` models a rewindable body whose re-acquisition at a given
attempt index may fail with an error. -/
def rewindStep (getBody : Option (Nat → Except GoErr Unit)) (attempt : Nat) :
    Except GoErr Unit :=
  match getBody with
  | none => Except.ok ()
  | some gb => gb attempt

/-- The value `doWithRetry` produces, together with the observable trace:
the final `(resp, err)` pair, the list of `OnRetry` events in invocation
order, and the number of `client.Do` calls actually made. -/
structure RetryResult where
  resp : Option GoResponse
  err : Option GoErr
  events : List RetryEvent
  made : Nat
  deriving DecidableEq, Repr

/-- The body of the `for attempt := 0; attempt <= maxRetries; attempt++`
loop of `doWithRetry` (src/minireq.go:326-361). `fuel` is the number of
iterations the loop condition still allows (`maxRetries + 1 - attempt`);
at fuel 0 the condition fails and the current `(resp, err)` pair is
returned. Inside an iteration, in source order: if `attempt > 0` the
observer is invoked (the resolved observer is never nil, since
`defaultOnRetry` is non-nil and is only replaced by a non-nil
`h.Retry.OnRetry`); then the body is rewound — on failure the function
returns `nil` and the wrapped rewind error immediately; then `client.Do`
runs; then the retry policy decides between `break` and the next
iteration (closing the previous body, which the model need not track). -/
def retryLoop (policy : Option GoResponse → Option GoErr → Bool)
    (delayFn : Nat → Int)
    (getBody : Option (Nat → Except GoErr Unit))
    (attempts : Nat → Outcome) :
    Nat → Nat → Option GoResponse → Option GoErr → List RetryEvent → Nat →
      RetryResult
  | 0, _, resp, err, events, made => ⟨resp, err, events, made⟩
  | fuel + 1, attempt, resp, err, events, made =>
    let events' :=
      if 0 < attempt then
        events ++ [⟨attempt, statusOf resp, err, delayFn attempt⟩]
      else events
    match rewindStep getBody attempt with
    | Except.error e => ⟨none, some (GoErr.rewindWrap e), events', made⟩
    | Except.ok _ =>
      let o := attempts attempt
      if policy o.resp o.err then
        retryLoop policy delayFn getBody attempts fuel (attempt + 1)
          o.resp o.err events' (made + 1)
      else ⟨o.resp, o.err, events', made + 1⟩

/-- `doWithRetry` (src/minireq.go:300-363) with its retry configuration
already resolved (lines 310-324 substitute the defaults for the nil
fields of `h.Retry`): `maxRetries` is a Go `int`, so a negative value
makes the loop run zero times and return `(nil, nil)`. -/
def doWithRetry (maxRetries : Int)
    (policy : Option GoResponse → Option GoErr → Bool)
    (delayFn : Nat → Int)
    (getBody : Option (Nat → Except GoErr Unit))
    (attempts : Nat → Outcome) : RetryResult :=
  retryLoop policy delayFn getBody attempts (maxRetries + 1).toNat 0
    none none [] 0

/-- C1: with `MaxRetries = 3` and the predicate matching exactly the
status codes 500, 502, 503, 504, 408 and 429, attempts yielding statuses
500, 502 and then 200 make `doWithRetry` perform exactly 3 attempts
(2 retries), invoke the `OnRetry` observer exactly twice with attempt
indices 1 then 2, and return the status-200 response with no error. -/
theorem doWithRetry_seq_500_502_200 (d : Nat → Int) (g : Nat → Outcome) :
    doWithRetry 3 (RetryPolicyWithStatusCodes [500, 502, 503, 504, 408, 429])
      d none
      (fun n =>
        if n = 0 then ⟨some ⟨500⟩, none⟩
        else if n = 1 then ⟨some ⟨502⟩, none⟩
        else if n = 2 then ⟨some ⟨200⟩, none⟩
        else g n)
      = ⟨some ⟨200⟩, none,
          [⟨1, 500, none, d 1⟩, ⟨2, 502, none, d 2⟩], 3⟩ := by
  rfl

/-- A network oracle that always fails with a real network error. -/
def c2Attempts : Nat → Outcome :=
  fun _ => ⟨none, some (GoErr.simple "net down")⟩

/-- A `GetBody` that succeeds on the first acquisition (attempt 0) and
fails on every subsequent rewind. -/
def c2GetBody : Nat → Except GoErr Unit :=
  fun a => if a = 0 then Except.ok () else Except.error (GoErr.simple "rewind boom")

/-- C2 counterexample: attempt 0 produces the real network error
"net down"; the rewind before attempt 1 fails with "rewind boom".
`doWithRetry` (src/minireq.go:344-350) returns the rewind error wrapped in
"failed to reset request body" — the inner `bodyCopy, err :=` shadows the
outer `err`, so the last real network error is discarded, contradicting
the claim that the last network error is returned. -/
theorem doWithRetry_rewind_counterexample :
    (doWithRetry 3 defaultRetryPolicy (fun _ => 0) (some c2GetBody)
        c2Attempts).err
      = some (GoErr.rewindWrap (GoErr.simple "rewind boom"))
    ∧ (doWithRetry 3 defaultRetryPolicy (fun _ => 0) (some c2GetBody)
        c2Attempts).err
      ≠ some (GoErr.simple "net down") := by
  exact ⟨rfl, by decide⟩

/-- C2 amended: when a prior attempt produced a real network error and
`request.GetBody` then fails on a subsequent attempt, `doWithRetry` aborts
the retry loop early and returns a nil response together with the rewind
error wrapped as "failed to reset request body: ...", not the last real
network error (which is discarded). -/
theorem doWithRetry_rewind_returns_wrapped_error (eNet eRw : GoErr)
    (d : Nat → Int) (m : Int) (hm : 1 ≤ m) :
    doWithRetry m defaultRetryPolicy d
        (some fun a => if a = 0 then Except.ok () else Except.error eRw)
        (fun _ => ⟨none, some eNet⟩)
      = ⟨none, some (GoErr.rewindWrap eRw), [⟨1, 0, some eNet, d 1⟩], 1⟩ := by
  obtain ⟨n, hn⟩ : ∃ n, (m + 1).toNat = n + 2 :=
    ⟨(m + 1).toNat - 2, by omega⟩
  unfold doWithRetry
  rw [hn]
  rfl

/-- Witness for the amended C2 theorem at `m = 1` with concrete errors. -/
theorem doWithRetry_rewind_returns_wrapped_error_witness :
    doWithRetry 1 defaultRetryPolicy (fun _ => 0)
        (some fun a =>
          if a = 0 then Except.ok ()
          else Except.error (GoErr.simple "rewind boom"))
        (fun _ => ⟨none, some (GoErr.simple "net down")⟩)
      = ⟨none, some (GoErr.rewindWrap (GoErr.simple "rewind boom")),
          [⟨1, 0, some (GoErr.simple "net down"), 0⟩], 1⟩ :=
  doWithRetry_rewind_returns_wrapped_error (GoErr.simple "net down")
    (GoErr.simple "rewind boom") (fun _ => 0) 1 (by decide)

/-- One octet of the anchored SOCKS5 address pattern of `setS5Proxy`
(src/minireq.go:167): `(2(5[0-5]|[0-4]\d))|[0-1]?\d{1,2}`, i.e. any 1- or
2-digit string, a 3-digit string starting with 0 or 1, or 200-255. -/
def isOctet : List Char → Bool
  | [a] => a.isDigit
  | [a, b] => a.isDigit && b.isDigit
  | [a, b, c] =>
      ((a == '0' || a == '1') && b.isDigit && c.isDigit) ||
      (a == '2' && b == '5' && c.isDigit && decide (c ≤ '5')) ||
      (a == '2' && b.isDigit && decide (b ≤ '4') && c.isDigit)
  | _ => false

/-- Split a character list on a separator character; `n` separators yield
`n + 1` (possibly empty) groups. -/
def splitOnChar (sep : Char) : List Char → List (List Char)
  | [] => [[]]
  | c :: cs =>
    if c = sep then [] :: splitOnChar sep cs
    else
      match splitOnChar sep cs with
      | [] => [[c]]
      | g :: gs => (c :: g) :: gs

/-- Whole-string match of the regular expression
`^octet(\.octet){3}:\d{1,5}$` used by `setS5Proxy` (src/minireq.go:167):
four dot-separated octets, a colon, and one to five digits. Octets and the
port are digit-only, so splitting on the single colon and the three dots
is equivalent to the anchored pattern. -/
def matchesS5Addr (address : String) : Bool :=
  match splitOnChar ':' address.toList with
  | [ip, port] =>
    (match splitOnChar '.' ip with
     | [o1, o2, o3, o4] =>
         isOctet o1 && isOctet o2 && isOctet o3 && isOctet o4
     | _ => false)
    && decide (1 ≤ port.length) && decide (port.length ≤ 5)
    && port.all Char.isDigit
  | _ => false

/-- `setS5Proxy` (src/minireq.go:166-182): reject an address that does not
match the strict ipv4-octets:port pattern with the error "address is
error"; otherwise build the SOCKS5 dialer. `proxy.SOCKS5` with network
"tcp" performs no I/O and cannot fail, so a valid address always yields a
dialer (modelled by the address it is bound to). -/
def setS5Proxy (address : String) : Except String String :=
  if matchesS5Addr address then Except.ok address
  else Except.error "address is error"

/-- `transportConfig` (src/minireq.go:25-35); Go zero values as defaults. -/
structure transportConfig where
  Insecure : Bool := false
  HttpProxyAddress : String := ""
  Socks5ProxyAddress : String := ""
  TLSHandshakeTimeout : Int := 0
  HTTP2Enabled : Bool := false
  MaxIdleConns : Int := 0
  MaxIdleConnsPerHost : Int := 0
  IdleConnTimeout : Int := 0
  ResponseHeaderTimeout : Int := 0
  deriving DecidableEq, Repr

/-- The configuration-bearing fields of the `http.Transport` built by
`getTransport` (src/minireq.go:115-150). `proxyURL` is the parsed HTTP
proxy (none when unset), `dialContext` the address the SOCKS5 dialer is
bound to (none when unset or when dialer construction failed); timeouts
are in seconds as in the config. -/
structure Transport where
  tlsInsecureSkipVerify : Bool
  tlsHandshakeTimeoutSec : Int
  forceAttemptHTTP2 : Bool
  proxyURL : Option String
  dialContext : Option String
  maxIdleConns : Int
  maxIdleConnsPerHost : Int
  idleConnTimeoutSec : Int
  responseHeaderTimeoutSec : Int
  deriving DecidableEq, Repr

/-- The transport construction of `getTransport` (src/minireq.go:115-150)
as a function of the configuration snapshot, field by field: each Go
`if` that conditionally assigns a field of the zero-initialised
`clientTransport` becomes a conditional on that field. `URL.Parse` only
fails on control characters and is modelled as always succeeding; a
`setS5Proxy` failure leaves `DialContext` unset (the `err == nil` guard at
src/minireq.go:129 silently drops the error). -/
def buildTransport (cfg : transportConfig) : Transport :=
  { tlsInsecureSkipVerify := cfg.Insecure
    tlsHandshakeTimeoutSec := cfg.TLSHandshakeTimeout
    forceAttemptHTTP2 := cfg.HTTP2Enabled
    proxyURL :=
      if cfg.HttpProxyAddress ≠ "" then some cfg.HttpProxyAddress else none
    dialContext :=
      if cfg.Socks5ProxyAddress ≠ "" then
        match setS5Proxy cfg.Socks5ProxyAddress with
        | Except.ok d => some d
        | Except.error _ => none
      else none
    maxIdleConns := if 0 < cfg.MaxIdleConns then cfg.MaxIdleConns else 0
    maxIdleConnsPerHost :=
      if 0 < cfg.MaxIdleConnsPerHost then cfg.MaxIdleConnsPerHost else 0
    idleConnTimeoutSec :=
      if 0 < cfg.IdleConnTimeout then cfg.IdleConnTimeout else 0
    responseHeaderTimeoutSec :=
      if 0 < cfg.ResponseHeaderTimeout then cfg.ResponseHeaderTimeout else 0 }

/-- The mutable fields of `HttpClient` (src/minireq.go:37-44) under
sequential (single-caller) semantics of the atomic cells, plus the ghost
counter `builds` of how many transports have been constructed. -/
structure ClientState where
  cfg : transportConfig
  transport : Option Transport
  timeout : Int
  autoRedirect : Bool
  builds : Nat
  deriving DecidableEq, Repr

/-- `NewClient` (src/minireq.go:71-92): default config with empty proxy
addresses, 30s TLS handshake timeout, HTTP/2 enabled; 30s timeout;
redirects followed; no transport built yet. -/
def NewClient : ClientState :=
  { cfg := { Socks5ProxyAddress := ""
             TLSHandshakeTimeout := 30
             HTTP2Enabled := true }
    transport := none
    timeout := 30
    autoRedirect := false
    builds := 0 }

/-- `getTransport` (src/minireq.go:109-158) under sequential semantics: a
cached transport is returned as is; otherwise a transport is built from
the current configuration and published. With a single caller the
`Swap` at line 152 always returns the nil it loaded at line 110, so the
freshly built transport is the one returned. The ghost `builds` counter
records each construction. -/
def getTransport (s : ClientState) : Transport × ClientState :=
  match s.transport with
  | some t => (t, s)
  | none =>
    let t := buildTransport s.cfg
    (t, { s with transport := some t, builds := s.builds + 1 })

/-- `clearTransport` (src/minireq.go:160-163): drop the cached transport
(the caller then drains the old one's idle connections, which the model
need not track). -/
def clearTransport (s : ClientState) : ClientState :=
  { s with transport := none }

/-- `SetSocks5Proxy` (src/minireq.go:376-386): store the address, clear
the HTTP proxy when the address is non-empty, invalidate the transport. -/
def SetSocks5Proxy (addr : String) (s : ClientState) : ClientState :=
  let cfg := { s.cfg with Socks5ProxyAddress := addr }
  let cfg := if addr ≠ "" then { cfg with HttpProxyAddress := "" } else cfg
  clearTransport { s with cfg := cfg }

/-- `SetHttpProxyURL` (src/minireq.go:389-399): store the URL, clear the
SOCKS5 address when the URL is non-empty, invalidate the transport. -/
def SetHttpProxyURL (proxyURL : String) (s : ClientState) : ClientState :=
  let cfg := { s.cfg with HttpProxyAddress := proxyURL }
  let cfg :=
    if proxyURL ≠ "" then { cfg with Socks5ProxyAddress := "" } else cfg
  clearTransport { s with cfg := cfg }

/-- `SetMaxIdleConns` (src/minireq.go:402-409). -/
def SetMaxIdleConns (n : Int) (s : ClientState) : ClientState :=
  clearTransport { s with cfg := { s.cfg with MaxIdleConns := n } }

/-- `SetMaxIdleConnsPerHost` (src/minireq.go:412-419). -/
def SetMaxIdleConnsPerHost (n : Int) (s : ClientState) : ClientState :=
  clearTransport { s with cfg := { s.cfg with MaxIdleConnsPerHost := n } }

/-- `SetIdleConnTimeout` (src/minireq.go:422-429). -/
def SetIdleConnTimeout (seconds : Int) (s : ClientState) : ClientState :=
  clearTransport { s with cfg := { s.cfg with IdleConnTimeout := seconds } }

/-- `SetResponseHeaderTimeout` (src/minireq.go:432-439). -/
def SetResponseHeaderTimeout (seconds : Int) (s : ClientState) :
    ClientState :=
  clearTransport
    { s with cfg := { s.cfg with ResponseHeaderTimeout := seconds } }

/-- `SetHTTP2` (src/minireq.go:442-449). -/
def SetHTTP2 (enabled : Bool) (s : ClientState) : ClientState :=
  clearTransport { s with cfg := { s.cfg with HTTP2Enabled := enabled } }

/-- `SetInsecure` (src/minireq.go:452-459). -/
def SetInsecure (enabled : Bool) (s : ClientState) : ClientState :=
  clearTransport { s with cfg := { s.cfg with Insecure := enabled } }

/-- `SetTLSHandshakeTimeout` (src/minireq.go:462-469). -/
def SetTLSHandshakeTimeout (t : Int) (s : ClientState) : ClientState :=
  clearTransport { s with cfg := { s.cfg with TLSHandshakeTimeout := t } }

/-- `SetTimeout` (src/minireq.go:366-368): does not touch the transport. -/
def SetTimeout (i : Int) (s : ClientState) : ClientState :=
  { s with timeout := i }

/-- `DisableAutoRedirect` (src/minireq.go:371-373). -/
def DisableAutoRedirect (enabled : Bool) (s : ClientState) : ClientState :=
  { s with autoRedirect := enabled }

/-- C3 counterexample: for the SOCKS5 address "localhost:1080" the dialer
construction fails ("address is error" from `setS5Proxy`), yet
`getTransport` surfaces no error to the caller — its result type carries
no error at all — and quietly returns a transport built without the
proxy: its `DialContext` is unset, so requests would go out directly.
This refutes the claim that the failure is surfaced and never silently
ignored. -/
theorem getTransport_socks5_failure_counterexample :
    setS5Proxy "localhost:1080" = Except.error "address is error"
    ∧ (getTransport
        (SetSocks5Proxy "localhost:1080" NewClient)).fst.dialContext = none
    ∧ (getTransport (SetSocks5Proxy "localhost:1080" NewClient)).fst
        = buildTransport (SetSocks5Proxy "localhost:1080" NewClient).cfg := by
  exact ⟨rfl, rfl, rfl⟩

/-- C3 amended: for every client state whose configured SOCKS5 proxy
address makes dialer construction fail, the failure is silently ignored:
`getTransport` (src/minireq.go:127-134) builds the transport without the
SOCKS5 `DialContext` and returns it for use by requests, surfacing no
error to the caller. -/
theorem getTransport_socks5_failure_silent (s : ClientState) (e : String)
    (h : setS5Proxy s.cfg.Socks5ProxyAddress = Except.error e)
    (ht : s.transport = none) :
    (getTransport s).fst.dialContext = none
    ∧ (getTransport s).fst = buildTransport s.cfg := by
  have hb : (buildTransport s.cfg).dialContext = none := by
    simp only [buildTransport]
    rw [h]
    split <;> rfl
  have hg : getTransport s = (buildTransport s.cfg,
      { s with transport := some (buildTransport s.cfg),
               builds := s.builds + 1 }) := by
    simp [getTransport, ht]
  rw [hg]
  exact ⟨hb, rfl⟩

/-- Witness for the amended C3 theorem: a client freshly configured with
the malformed SOCKS5 address "localhost:1080". -/
theorem getTransport_socks5_failure_silent_witness :
    (getTransport
        (SetSocks5Proxy "localhost:1080" NewClient)).fst.dialContext = none
    ∧ (getTransport (SetSocks5Proxy "localhost:1080" NewClient)).fst
        = buildTransport (SetSocks5Proxy "localhost:1080" NewClient).cfg :=
  getTransport_socks5_failure_silent
    (SetSocks5Proxy "localhost:1080" NewClient) "address is error" rfl rfl

/-- C4: every transport-affecting setter invalidates the cached transport
(the state left behind holds none), the next `getTransport` call builds
its result from the updated configuration, and that configuration holds
the setter's new value — e.g. after `SetInsecure true` the newly built
transport has TLS verification disabled. -/
theorem setters_invalidate_transport (s : ClientState) (b h2 : Bool)
    (addr u : String) (n m k r tl : Int) :
    ((SetInsecure b s).transport = none
      ∧ (getTransport (SetInsecure b s)).fst
          = buildTransport (SetInsecure b s).cfg
      ∧ (SetInsecure b s).cfg.Insecure = b
      ∧ (getTransport (SetInsecure true s)).fst.tlsInsecureSkipVerify = true)
    ∧ ((SetSocks5Proxy addr s).transport = none
      ∧ (getTransport (SetSocks5Proxy addr s)).fst
          = buildTransport (SetSocks5Proxy addr s).cfg
      ∧ (SetSocks5Proxy addr s).cfg.Socks5ProxyAddress = addr)
    ∧ ((SetHttpProxyURL u s).transport = none
      ∧ (getTransport (SetHttpProxyURL u s)).fst
          = buildTransport (SetHttpProxyURL u s).cfg
      ∧ (SetHttpProxyURL u s).cfg.HttpProxyAddress = u)
    ∧ ((SetHTTP2 h2 s).transport = none
      ∧ (getTransport (SetHTTP2 h2 s)).fst
          = buildTransport (SetHTTP2 h2 s).cfg
      ∧ (SetHTTP2 h2 s).cfg.HTTP2Enabled = h2
      ∧ (getTransport (SetHTTP2 h2 s)).fst.forceAttemptHTTP2 = h2)
    ∧ ((SetMaxIdleConns n s).transport = none
      ∧ (getTransport (SetMaxIdleConns n s)).fst
          = buildTransport (SetMaxIdleConns n s).cfg
      ∧ (SetMaxIdleConns n s).cfg.MaxIdleConns = n)
    ∧ ((SetMaxIdleConnsPerHost m s).transport = none
      ∧ (getTransport (SetMaxIdleConnsPerHost m s)).fst
          = buildTransport (SetMaxIdleConnsPerHost m s).cfg
      ∧ (SetMaxIdleConnsPerHost m s).cfg.MaxIdleConnsPerHost = m)
    ∧ ((SetIdleConnTimeout k s).transport = none
      ∧ (getTransport (SetIdleConnTimeout k s)).fst
          = buildTransport (SetIdleConnTimeout k s).cfg
      ∧ (SetIdleConnTimeout k s).cfg.IdleConnTimeout = k)
    ∧ ((SetResponseHeaderTimeout r s).transport = none
      ∧ (getTransport (SetResponseHeaderTimeout r s)).fst
          = buildTransport (SetResponseHeaderTimeout r s).cfg
      ∧ (SetResponseHeaderTimeout r s).cfg.ResponseHeaderTimeout = r)
    ∧ ((SetTLSHandshakeTimeout tl s).transport = none
      ∧ (getTransport (SetTLSHandshakeTimeout tl s)).fst
          = buildTransport (SetTLSHandshakeTimeout tl s).cfg
      ∧ (SetTLSHandshakeTimeout tl s).cfg.TLSHandshakeTimeout = tl
      ∧ (getTransport
          (SetTLSHandshakeTimeout tl s)).fst.tlsHandshakeTimeoutSec = tl) :=
  by
  refine ⟨⟨rfl, rfl, rfl, rfl⟩, ⟨rfl, rfl, ?_⟩, ⟨rfl, rfl, ?_⟩,
    ⟨rfl, rfl, rfl, rfl⟩, ⟨rfl, rfl, rfl⟩, ⟨rfl, rfl, rfl⟩,
    ⟨rfl, rfl, rfl⟩, ⟨rfl, rfl, rfl⟩, ⟨rfl, rfl, rfl, rfl⟩⟩
  · simp only [SetSocks5Proxy, clearTransport]
    split <;> rfl
  · simp only [SetHttpProxyURL, clearTransport]
    split <;> rfl

/-- C5: with no intervening setter, a second sequential `getTransport`
call returns the very same transport, leaves the state untouched, and
constructs nothing new (the ghost build counter does not move). -/
theorem getTransport_cached_reuse (s : ClientState) :
    (getTransport (getTransport s).snd).fst = (getTransport s).fst
    ∧ (getTransport (getTransport s).snd).snd = (getTransport s).snd
    ∧ (getTransport (getTransport s).snd).snd.builds
        = (getTransport s).snd.builds := by
  cases h : s.transport with
  | some t => simp [getTransport, h]
  | none => simp [getTransport, h]

/-- The part of `http.Response` the accessors of src/response.go touch:
its body. `none` models a nil `Body`; `some data` a readable stream whose
full contents are `data`. -/
structure HttpResponseBody where
  body : Option (List Nat)
  deriving DecidableEq, Repr

/-- `MiniResponse` (src/response.go:11-15) with the ghost counter `reads`
of how many times `io.ReadAll` consumed the network body. -/
structure MiniResponse where
  response : Option HttpResponseBody
  bodyCache : Option (List Nat)
  reads : Nat
  deriving DecidableEq, Repr

/-- `RawData` (src/response.go:37-58): a populated cache is returned as
is; with a nil response or nil body the call fails with "response or
response body is nil"; otherwise the body is fully read (one network
read), closed and set to nil by the deferred function, and the bytes are
cached and returned. -/
def RawData (res : MiniResponse) :
    Except String (List Nat) × MiniResponse :=
  match res.bodyCache with
  | some c => (Except.ok c, res)
  | none =>
    match res.response with
    | none => (Except.error "response or response body is nil", res)
    | some r =>
      match r.body with
      | none => (Except.error "response or response body is nil", res)
      | some data =>
        (Except.ok data,
         { response := some { body := none }
           bodyCache := some data
           reads := res.reads + 1 })

/-- `ReadStream` (src/response.go:92-103): a populated cache yields a
fresh in-memory reader over the cached bytes (no state change, no network
read); with a nil response or nil body the call fails with "response or
response body is nil"; otherwise ownership of the live body transfers to
the caller and `Response.Body` is set to nil. The returned list is the
byte sequence the handed-out reader yields. -/
def ReadStream (res : MiniResponse) :
    Except String (List Nat) × MiniResponse :=
  match res.bodyCache with
  | some c => (Except.ok c, res)
  | none =>
    match res.response with
    | none => (Except.error "response or response body is nil", res)
    | some r =>
      match r.body with
      | none => (Except.error "response or response body is nil", res)
      | some data =>
        (Except.ok data, { res with response := some { body := none } })

/-- C6: (a) calling `ReadStream` after `RawData` has materialised and
cached the body serves exactly the cached bytes, leaves the state
untouched, and performs no further network read; (b) calling `RawData`
after `ReadStream` has transferred body ownership fails with the defined
error "response or response body is nil" rather than blocking or
returning stale data. -/
theorem stream_cache_mutual_exclusion (r : MiniResponse) :
    (∀ b r1, RawData r = (Except.ok b, r1) →
        ReadStream r1 = (Except.ok b, r1))
    ∧ (∀ b r1, r.bodyCache = none → ReadStream r = (Except.ok b, r1) →
        (RawData r1).fst = Except.error "response or response body is nil"
        ∧ r1.reads = r.reads) := by
  constructor
  · intro b r1 h
    cases hc : r.bodyCache with
    | some c =>
      simp [RawData, hc] at h
      obtain ⟨hb, hr⟩ := h
      subst hb hr
      simp [ReadStream, hc]
    | none =>
      cases hresp : r.response with
      | none => simp [RawData, hc, hresp] at h
      | some rb =>
        cases hbody : rb.body with
        | none => simp [RawData, hc, hresp, hbody] at h
        | some data =>
          simp [RawData, hc, hresp, hbody] at h
          obtain ⟨hb, hr⟩ := h
          subst hb
          rw [← hr]
          simp [ReadStream]
  · intro b r1 hc h
    cases hresp : r.response with
    | none => simp [ReadStream, hc, hresp] at h
    | some rb =>
      cases hbody : rb.body with
      | none => simp [ReadStream, hc, hresp, hbody] at h
      | some data =>
        simp [ReadStream, hc, hresp, hbody] at h
        obtain ⟨hb, hr⟩ := h
        rw [← hr]
        simp [RawData, hc]

/-- Witness for C6 on a concrete response whose body is the byte list
[7, 8]: part (a) after `RawData`, part (b) after `ReadStream`. -/
theorem stream_cache_mutual_exclusion_witness :
    ReadStream ⟨some ⟨none⟩, some [7, 8], 1⟩
        = (Except.ok [7, 8], ⟨some ⟨none⟩, some [7, 8], 1⟩)
    ∧ (RawData ⟨some ⟨none⟩, none, 0⟩).fst
        = Except.error "response or response body is nil"
    ∧ (0 : Nat) = 0 :=
  ⟨(stream_cache_mutual_exclusion ⟨some ⟨some [7, 8]⟩, none, 0⟩).1
      [7, 8] ⟨some ⟨none⟩, some [7, 8], 1⟩ rfl,
   (stream_cache_mutual_exclusion ⟨some ⟨some [7, 8]⟩, none, 0⟩).2
      [7, 8] ⟨some ⟨none⟩, none, 0⟩ rfl rfl⟩

/-- C7: on a response whose body has not yet been materialised, a
successful `RawData` reads the network exactly once; the second `RawData`
call returns the identical byte sequence, changes nothing, and is served
entirely from the cache (no further read). -/
theorem rawData_idempotent (r : MiniResponse) (b : List Nat)
    (r1 : MiniResponse) (hc : r.bodyCache = none)
    (h : RawData r = (Except.ok b, r1)) :
    RawData r1 = (Except.ok b, r1) ∧ r1.reads = r.reads + 1 := by
  cases hresp : r.response with
  | none => simp [RawData, hc, hresp] at h
  | some rb =>
    cases hbody : rb.body with
    | none => simp [RawData, hc, hresp, hbody] at h
    | some data =>
      simp [RawData, hc, hresp, hbody] at h
      obtain ⟨hb, hr⟩ := h
      subst hb
      rw [← hr]
      simp [RawData]

/-- Witness for C7 on a concrete response with body [1, 2, 3]. -/
theorem rawData_idempotent_witness :
    RawData ⟨some ⟨none⟩, some [1, 2, 3], 1⟩
        = (Except.ok [1, 2, 3], ⟨some ⟨none⟩, some [1, 2, 3], 1⟩)
    ∧ (1 : Nat) = 0 + 1 :=
  rawData_idempotent ⟨some ⟨some [1, 2, 3]⟩, none, 0⟩ [1, 2, 3]
    ⟨some ⟨none⟩, some [1, 2, 3], 1⟩ rfl rfl

/-- Go's `time.Duration(f)` conversion of a float to int64 nanoseconds:
truncation toward zero, modelled on exact rationals. -/
def durTrunc (q : ℚ) : Int :=
  if 0 ≤ q then ⌊q⌋ else -⌊-q⌋

/-- `RetryExponentialDelay` (src/retry.go:62-76): attempts ≤ 0 count as
1; the base delay is doubled per attempt (`baseDelay * (1 << (attempt-1))`,
within int64 range for the attempts considered); with a non-positive
jitter ratio the undithered delay is returned; otherwise the delay is
scaled by `1 + (rand.Float64()*2 - 1) * jitter`. The random sample `u`
(Go: `rand.Float64()`, uniform on [0,1)) is an explicit argument, and the
float64 arithmetic is modelled over exact rationals. Durations are int64
nanosecond counts, so `baseDelay : Int`. -/
def RetryExponentialDelay (baseDelay : Int) (jitter : ℚ) (u : ℚ)
    (attempt : Int) : Int :=
  let a := if attempt ≤ 0 then 1 else attempt
  let delay := baseDelay * 2 ^ (a - 1).toNat
  if jitter ≤ 0 then delay
  else durTrunc ((delay : ℚ) * (1 + (u * 2 - 1) * jitter))

/-- C8: with base 100ms (= 100000000 ns) and jitter ratio 0, the delay for
attempt 3 is exactly 400ms; with jitter ratio 0.1, for every value
`u ∈ [0, 1)` of the uniform random sample, the delay for attempt 3 lies
within [360ms, 440ms]. -/
theorem retryExponentialDelay_bounds (u : ℚ) (h0 : 0 ≤ u) (h1 : u < 1) :
    RetryExponentialDelay 100000000 0 u 3 = 400000000
    ∧ 360000000 ≤ RetryExponentialDelay 100000000 (1 / 10) u 3
    ∧ RetryExponentialDelay 100000000 (1 / 10) u 3 ≤ 440000000 := by
  have hq : ((400000000 : Int) : ℚ) * (1 + (u * 2 - 1) * (1 / 10))
      = 360000000 + 40000000 * (u * 2) := by
    push_cast
    ring
  have hqnn : (0 : ℚ)
      ≤ ((400000000 : Int) : ℚ) * (1 + (u * 2 - 1) * (1 / 10)) := by
    rw [hq]
    linarith
  have hred : RetryExponentialDelay 100000000 (1 / 10) u 3
      = ⌊((400000000 : Int) : ℚ) * (1 + (u * 2 - 1) * (1 / 10))⌋ := by
    have hd : RetryExponentialDelay 100000000 (1 / 10) u 3
        = durTrunc (((400000000 : Int) : ℚ) * (1 + (u * 2 - 1) * (1 / 10))) := by
      simp only [RetryExponentialDelay]
      norm_num [show Int.toNat 2 = 2 from rfl]
    rw [hd, durTrunc, if_pos hqnn]
  refine ⟨by norm_num [RetryExponentialDelay, show Int.toNat 2 = 2 from rfl],
    ?_, ?_⟩
  · rw [hred, Int.le_floor, hq]
    push_cast
    linarith
  · rw [hred]
    have hlt : ⌊((400000000 : Int) : ℚ) * (1 + (u * 2 - 1) * (1 / 10))⌋
        < (440000001 : Int) := by
      rw [Int.floor_lt, hq]
      push_cast
      linarith
    omega

/-- Witness for C8 at the sample `u = 0` (jitter factor 0.9, delay exactly
360ms). -/
theorem retryExponentialDelay_bounds_witness :
    (0 : ℚ) ≤ 0 ∧ (0 : ℚ) < 1
    ∧ (RetryExponentialDelay 100000000 0 0 3 = 400000000
       ∧ 360000000 ≤ RetryExponentialDelay 100000000 (1 / 10) 0 3
       ∧ RetryExponentialDelay 100000000 (1 / 10) 0 3 ≤ 440000000) :=
  ⟨le_refl 0, by norm_num,
   retryExponentialDelay_bounds 0 (le_refl 0) (by norm_num)⟩

/-- Go `mime/multipart` quote escaping for header parameters: `\` becomes
`\\` and `"` becomes `\"` (the two replacements never overlap, so the two
sequential passes equal the simultaneous replacer). -/
def escapeQuotes (s : String) : String :=
  (s.replace "\\" "\\\\").replace "\"" "\\\""

/-- CRLF, the line terminator of the multipart wire format. -/
def crlf : String :=
  "\r\n"

/-- The bytes `multipart.Writer.WriteField` (called by the `FormData`
branch of `reqOptions`, src/minireq.go:198-206) emits for one text field:
the dash-boundary line (preceded by CRLF when a part was already
written), the Content-Disposition header, a blank line, and the value. -/
def multipartFieldPart (boundary name value : String) (first : Bool) :
    String :=
  (if first then "--" ++ boundary ++ crlf
   else crlf ++ "--" ++ boundary ++ crlf)
  ++ "Content-Disposition: form-data; name=\"" ++ escapeQuotes name ++ "\""
  ++ crlf ++ crlf ++ value

/-- The bytes `multipart.Writer.CreateFormFile` plus the `io.Copy` of the
in-memory reader (src/minireq.go:227-234) emit for one `FileInMemory`
field: dash-boundary line, Content-Disposition with field name and
filename, Content-Type application/octet-stream (headers in sorted
order), a blank line, and the file contents. -/
def multipartFilePart (boundary field filename contents : String)
    (first : Bool) : String :=
  (if first then "--" ++ boundary ++ crlf
   else crlf ++ "--" ++ boundary ++ crlf)
  ++ "Content-Disposition: form-data; name=\"" ++ escapeQuotes field
  ++ "\"; filename=\"" ++ escapeQuotes filename ++ "\"" ++ crlf
  ++ "Content-Type: application/octet-stream" ++ crlf ++ crlf ++ contents

/-- The closing delimiter `multipart.Writer.Close` writes
(src/minireq.go:241). -/
def multipartCloseDelim (boundary : String) : String :=
  crlf ++ "--" ++ boundary ++ "--" ++ crlf

/-- The fully materialised multipart body for a `FormData` payload with
exactly one text field and one in-memory file field: the Values map is
written first, then the Files map, then the closing delimiter
(src/minireq.go:193-244; with singleton maps the map iteration order is
determined). -/
def formDataBody (boundary k v ff fn fc : String) : String :=
  multipartFieldPart boundary k v true
  ++ multipartFilePart boundary ff fn fc false
  ++ multipartCloseDelim boundary

/-- The body-bearing fields `reqOptions` sets on the request in the
`FormData` case (src/minireq.go:246-255). `rewindBuf` is the `buf` byte
slice captured by the `GetBody` closure before anything reads the body:
every `GetBody()` invocation returns a fresh reader over exactly these
bytes. -/
structure BuiltBody where
  contentLength : Int
  contentType : String
  body : String
  rewindBuf : String
  deriving DecidableEq, Repr

/-- The `FormData` branch of `reqOptions` (src/minireq.go:193-255) for a
payload with one text field `k=v` and one in-memory file field:
`ContentLength := int64(reader.Len())` is the byte length of the
materialised buffer, the content type carries the boundary, the body is
the buffer, and `buf := reader.Bytes()` (the whole buffer, snapshotted
before any read) backs the `GetBody` closure. -/
def reqOptionsFormData (boundary k v ff fn fc : String) : BuiltBody :=
  let bodyStr := formDataBody boundary k v ff fn fc
  { contentLength := (bodyStr.utf8ByteSize : Int)
    contentType := "multipart/form-data; boundary=" ++ boundary
    body := bodyStr
    rewindBuf := bodyStr }

/-- The bytes the `i`-th invocation of the `GetBody` closure yields: a
fresh `bytes.NewReader(buf)` over the captured snapshot, identical on
every call (src/minireq.go:252-255). -/
def getBodyInvocation (b : BuiltBody) (_i : Nat) : String :=
  b.rewindBuf

/-- C9: for every multipart `FormData` payload with one text field and one
in-memory file field, the built request's declared Content-Length equals
the byte length of the fully materialised body buffer, and every
invocation of the rewind closure `GetBody` yields a byte sequence
identical to the original body. -/
theorem formData_contentLength_and_rewind (boundary k v ff fn fc : String) :
    (reqOptionsFormData boundary k v ff fn fc).contentLength
        = ((reqOptionsFormData boundary k v ff fn fc).body.utf8ByteSize : Int)
    ∧ ∀ i j : Nat,
        getBodyInvocation (reqOptionsFormData boundary k v ff fn fc) i
          = (reqOptionsFormData boundary k v ff fn fc).body
        ∧ getBodyInvocation (reqOptionsFormData boundary k v ff fn fc) i
          = getBodyInvocation (reqOptionsFormData boundary k v ff fn fc) j :=
  ⟨rfl, fun _ _ => ⟨rfl, rfl⟩⟩

/-- The client states reachable from `NewClient` by any sequence of
configuration setter calls (src/minireq.go:366-469). -/
inductive ReachableClient : ClientState → Prop
  | new : ReachableClient NewClient
  | insecure (b : Bool) (s : ClientState) :
      ReachableClient s → ReachableClient (SetInsecure b s)
  | socks5 (a : String) (s : ClientState) :
      ReachableClient s → ReachableClient (SetSocks5Proxy a s)
  | httpProxy (u : String) (s : ClientState) :
      ReachableClient s → ReachableClient (SetHttpProxyURL u s)
  | http2 (b : Bool) (s : ClientState) :
      ReachableClient s → ReachableClient (SetHTTP2 b s)
  | maxIdle (n : Int) (s : ClientState) :
      ReachableClient s → ReachableClient (SetMaxIdleConns n s)
  | maxIdlePerHost (n : Int) (s : ClientState) :
      ReachableClient s → ReachableClient (SetMaxIdleConnsPerHost n s)
  | idleTimeout (n : Int) (s : ClientState) :
      ReachableClient s → ReachableClient (SetIdleConnTimeout n s)
  | respHeaderTimeout (n : Int) (s : ClientState) :
      ReachableClient s → ReachableClient (SetResponseHeaderTimeout n s)
  | tlsHandshake (n : Int) (s : ClientState) :
      ReachableClient s → ReachableClient (SetTLSHandshakeTimeout n s)
  | timeout (i : Int) (s : ClientState) :
      ReachableClient s → ReachableClient (SetTimeout i s)
  | redirect (b : Bool) (s : ClientState) :
      ReachableClient s → ReachableClient (DisableAutoRedirect b s)

/-- C10: in every client state reachable from `NewClient` by setter
calls, the HTTP proxy address and the SOCKS5 proxy address are never both
non-empty; moreover `SetSocks5Proxy` with a non-empty address clears the
HTTP proxy address and `SetHttpProxyURL` with a non-empty URL clears the
SOCKS5 address. -/
theorem proxy_mutual_exclusion (s : ClientState) (h : ReachableClient s) :
    ¬(s.cfg.HttpProxyAddress ≠ "" ∧ s.cfg.Socks5ProxyAddress ≠ "")
    ∧ (∀ a, a ≠ "" → (SetSocks5Proxy a s).cfg.HttpProxyAddress = "")
    ∧ (∀ u, u ≠ "" → (SetHttpProxyURL u s).cfg.Socks5ProxyAddress = "") := by
  refine ⟨?_, ?_, ?_⟩
  · induction h with
    | new => simp [NewClient]
    | insecure b s hs ih => exact ih
    | socks5 a s hs ih =>
      by_cases ha : a = ""
      · subst ha
        simp [SetSocks5Proxy, clearTransport]
      · simp [SetSocks5Proxy, clearTransport, ha]
    | httpProxy u s hs ih =>
      by_cases hu : u = ""
      · subst hu
        simp [SetHttpProxyURL, clearTransport]
      · simp [SetHttpProxyURL, clearTransport, hu]
    | http2 b s hs ih => exact ih
    | maxIdle n s hs ih => exact ih
    | maxIdlePerHost n s hs ih => exact ih
    | idleTimeout n s hs ih => exact ih
    | respHeaderTimeout n s hs ih => exact ih
    | tlsHandshake n s hs ih => exact ih
    | timeout i s hs ih => exact ih
    | redirect b s hs ih => exact ih
  · intro a ha
    simp [SetSocks5Proxy, clearTransport, ha]
  · intro u hu
    simp [SetHttpProxyURL, clearTransport, hu]

/-- Witness for C10: the state reached by configuring an HTTP proxy on a
fresh client. -/
theorem proxy_mutual_exclusion_witness :
    ¬((SetHttpProxyURL "http://example.com:8080" NewClient).cfg.HttpProxyAddress
        ≠ ""
      ∧ (SetHttpProxyURL
          "http://example.com:8080" NewClient).cfg.Socks5ProxyAddress ≠ "") :=
  (proxy_mutual_exclusion (SetHttpProxyURL "http://example.com:8080" NewClient)
    (ReachableClient.httpProxy "http://example.com:8080" NewClient
      ReachableClient.new)).1

end Minireq
